import Mathlib

/-!
Shallow embedding of the team-send message-validation layer.

Sources embedded:
- src/src/schemas/messageSchema.ts : `baseMessageFormSchema`, `messageFormSchema`
  (edit-form mode, yes/no string flags and string dates) and `messageInputSchema`
  (storage mode, native booleans and dates).
- src/unnamed/part_005 : `getInitialSelectedMembers` (snapshot recipient selection).
- src/unnamed/part_004 : `connectEmail`, `connectSms`, `connectGroupMe` handlers.

Modelling conventions:
- Timestamps are integers counting minutes.  JavaScript `Date` comparisons become
  integer comparisons.  A form-mode `scheduledDate` string stands for its parsed
  timestamp (`new Date(s)`), so it is modelled as `Option Int` like the
  storage-mode date; `null`/`undefined`/empty string map to `none`.
- `setFullYear(y + 1)` (one calendar year) is modelled as adding 365 days of
  minutes, and `setMonth(m - num)` as subtracting 30-day months; the claims under
  study compare times only through `<`/`≤`, never through calendar boundaries.
- Zod semantics (zod 3.22, the version the repository pins): a failing value
  check (length or number bound) inside an otherwise well-typed object marks
  the parse dirty, not aborted, and a dirty parse still runs every `.refine`
  of the chain, accumulating their issues next to the base issues; only
  type-level failures abort, and those are excluded here by the Lean types.
  Validation output is therefore the concatenation of the base-check issues
  and each refinement's issues in source order; the empty list means the
  payload is accepted.
- Well-typedness (enum membership, number-vs-string) is carried by the Lean types,
  so only the value-level base checks (lengths, bounds) can fail.
-/

namespace TeamSend

inductive MessageStatus where
  | draft
  | pending
  | sent
  | failed
deriving DecidableEq

inductive MessageType where
  | scheduled
  | recurring
  | default
deriving DecidableEq

/-- The `ReccurPeriod` enum (`years | months | weeks | days`). -/
inductive RecurPeriod where
  | years
  | months
  | weeks
  | days
deriving DecidableEq

/-- The `ReminderPeriod` enum (`months | weeks | days | hours | minutes`). -/
inductive ReminderPeriod where
  | months
  | weeks
  | days
  | hours
  | minutes
deriving DecidableEq

/-- The yes/no string enum used by the edit-form flags. -/
inductive YesNo where
  | no
  | yes
deriving DecidableEq

/-- Modelled from the spec: the element type of `reminderSchema`
(src imports `./reminderSchema.ts`, which is not in the inspected sources);
per the spec a Reminder is a `num` plus a period. -/
structure Reminder where
  num : Int
  period : ReminderPeriod
deriving DecidableEq

/-- Modelled from the spec: the `recurMaxValues` configuration table
(`@/lib/validations` is not in the inspected sources).  The spec gives
days→31, weeks→~52, months→~12, years→unspecified smallest reasonable (5). -/
def recurMaxValues : RecurPeriod → Int
  | .years => 5
  | .months => 12
  | .weeks => 52
  | .days => 31

/-- Minutes in one day. -/
def minutesPerDay : Int := 1440

/-- Minutes standing for `setFullYear(y + 1)`: 365 days. -/
def minutesPerYear : Int := 525600

/-- Minutes standing for `setMonth(m - 1)`: 30 days. -/
def minutesPerMonth : Int := 43200

/-- Kinds of validation issues the embedded schemas can produce.  The base
object checks and each refinement get a distinct kind; `recurCap` carries the
period its message names. -/
inductive IssueKind where
  | contentMax
  | contentMin
  | subjectMax
  | recurringNumNotPositive
  | recurringNumMax
  | remindersMax
  | scheduledDateRequired
  | recurringFieldsRequired
  | remindersRequired
  | recurCap (period : RecurPeriod)
  | scheduleWindow
  | reminderLead
deriving DecidableEq

/-- A zod issue: its kind and its field path. -/
structure Issue where
  kind : IssueKind
  path : List String
deriving DecidableEq

/-- JavaScript truthiness of an optional number (`0`, `null`, `undefined` are falsy). -/
def optIntTruthy : Option Int → Bool
  | none => false
  | some n => n != 0

/-- JavaScript truthiness of an optional string (`""`, `null`, `undefined` are falsy). -/
def optStrTruthy : Option String → Bool
  | none => false
  | some s => !s.isEmpty

/-- Coercion of the form's yes/no flag to a boolean (`flag === "yes"`). -/
def yesNoToBool : YesNo → Bool
  | .no => false
  | .yes => true

/-- Payload type of `baseMessageFormSchema` / `messageFormSchema` (edit-form mode):
flags are yes/no strings, `scheduledDate` is a (parsed) string date. -/
structure MessageForm where
  id : Option String
  groupId : String
  status : MessageStatus
  type : MessageType
  content : String
  subject : Option String
  isScheduled : YesNo
  scheduledDate : Option Int
  isRecurring : YesNo
  recurringNum : Option Int
  recurringPeriod : Option RecurPeriod
  isReminders : YesNo
  reminders : Option (List Reminder)
  saveRecipientState : Bool
  recipients : List (String × Bool)
deriving DecidableEq

/-- Payload type of `messageInputSchema` (storage mode): the `.extend` swaps the
three flags to booleans and `scheduledDate` to a native date. -/
structure MessageInput where
  id : Option String
  groupId : String
  status : MessageStatus
  type : MessageType
  content : String
  subject : Option String
  isScheduled : Bool
  scheduledDate : Option Int
  isRecurring : Bool
  recurringNum : Option Int
  recurringPeriod : Option RecurPeriod
  isReminders : Bool
  reminders : Option (List Reminder)
  saveRecipientState : Bool
  recipients : List (String × Bool)
deriving DecidableEq

/-- Issues of the shared base object checks: `content: z.string().max(500).min(1)`,
`subject: z.string().max(100).nullish()`,
`recurringNum: z.number().positive().int().max(31).nullish()`,
`reminders: z.array(reminderSchema).max(3).nullish()`.  The object parser
accumulates issues across fields. -/
def baseIssues (content : String) (subject : Option String)
    (recurringNum : Option Int) (reminders : Option (List Reminder)) : List Issue :=
  (if 500 < content.length then [⟨.contentMax, ["content"]⟩] else [])
    ++ (if content.length < 1 then [⟨.contentMin, ["content"]⟩] else [])
    ++ (match subject with
        | some s => if 100 < s.length then [⟨.subjectMax, ["subject"]⟩] else []
        | none => [])
    ++ (match recurringNum with
        | some n =>
            (if n ≤ 0 then [⟨.recurringNumNotPositive, ["recurringNum"]⟩] else [])
              ++ (if 31 < n then [⟨.recurringNumMax, ["recurringNum"]⟩] else [])
        | none => [])
    ++ (match reminders with
        | some rs => if 3 < rs.length then [⟨.remindersMax, ["reminders"]⟩] else []
        | none => [])

/-- Recurrence-cap refinement, shared by both modes: fires when the flag is
truthy, `recurringNum` is truthy, `recurringPeriod` is present, and the number
exceeds `recurMaxValues[recurringPeriod]`.  Its issue path is
`["recurringNum", "recurringPeriod", "isRecurring"]`. -/
def recurCapIssue (per : RecurPeriod) : Issue :=
  ⟨.recurCap per, ["recurringNum", "recurringPeriod", "isRecurring"]⟩

/-- Issue list produced by the recurrence-cap refinement. -/
def recurCapIssues (isRecurring : Bool) (recurringNum : Option Int)
    (recurringPeriod : Option RecurPeriod) : List Issue :=
  match recurringNum, recurringPeriod with
  | some n, some per =>
      if isRecurring ∧ n ≠ 0 ∧ recurMaxValues per < n then [recurCapIssue per]
      else []
  | _, _ => []

/-- Schedule-window refinement, shared by both modes: when the flag and a date
are both truthy, the date must be `> now` and `≤ now` plus one year.  Its issue
path is `["scheduledDate", "isScheduled"]`. -/
def scheduleWindowIssues (now : Int) (isScheduled : Bool)
    (scheduledDate : Option Int) : List Issue :=
  match scheduledDate with
  | some d =>
      if isScheduled ∧ (d ≤ now ∨ now + minutesPerYear < d) then
        [⟨.scheduleWindow, ["scheduledDate", "isScheduled"]⟩]
      else []
  | none => []

/-- Lead-time offset of a reminder in minutes, mirroring the `switch` over the
reminder period (months modelled as 30 days, see the header). -/
def reminderOffset (r : Reminder) : Int :=
  match r.period with
  | .minutes => r.num
  | .hours => r.num * 60
  | .days => r.num * minutesPerDay
  | .weeks => r.num * 7 * minutesPerDay
  | .months => r.num * minutesPerMonth

/-- Trigger time of a reminder relative to a scheduled date:
the date minus the reminder's offset. -/
def reminderTrigger (scheduledDate : Int) (r : Reminder) : Int :=
  scheduledDate - reminderOffset r

/-- Reminder lead-time refinement (present only in `messageFormSchema`): when a
date and a reminder array are present (an empty array is truthy in JavaScript),
every reminder's trigger must be later than `now` plus five minutes.  The
source `.refine` passes no message object, so the zod issue path is empty. -/
def reminderLeadIssues (now : Int) (scheduledDate : Option Int)
    (reminders : Option (List Reminder)) : List Issue :=
  match scheduledDate, reminders with
  | some d, some rs =>
      if rs.all (fun r => decide (now + 5 < reminderTrigger d r)) then []
      else [⟨.reminderLead, []⟩]
  | _, _ => []

/-- Required-companion refinement of the storage mode:
`!(isScheduled && !scheduledDate)`, issue path `["scheduledDate"]`. -/
def scheduledDateRequiredIssues (isScheduled : Bool)
    (scheduledDate : Option Int) : List Issue :=
  if isScheduled ∧ scheduledDate = none then [⟨.scheduledDateRequired, ["scheduledDate"]⟩]
  else []

/-- Required-companion refinement of the storage mode:
`!(isRecurring && (!recurringNum || !recurringPeriod))`,
issue path `["recurringNum", "recurringPeriod"]`. -/
def recurringFieldsRequiredIssues (isRecurring : Bool) (recurringNum : Option Int)
    (recurringPeriod : Option RecurPeriod) : List Issue :=
  if isRecurring ∧ (optIntTruthy recurringNum = false ∨ recurringPeriod = none) then
    [⟨.recurringFieldsRequired, ["recurringNum", "recurringPeriod"]⟩]
  else []

/-- Required-companion refinement of the storage mode:
`!(isReminders && !reminders?.length)`, issue path `["reminders"]`. -/
def remindersRequiredIssues (isReminders : Bool)
    (reminders : Option (List Reminder)) : List Issue :=
  if isReminders ∧ (reminders = none ∨ reminders = some []) then
    [⟨.remindersRequired, ["reminders"]⟩]
  else []

/-- Base object issues of a form-mode payload. -/
def formBaseIssues (p : MessageForm) : List Issue :=
  baseIssues p.content p.subject p.recurringNum p.reminders

/-- Base object issues of a storage-mode payload. -/
def inputBaseIssues (q : MessageInput) : List Issue :=
  baseIssues q.content q.subject q.recurringNum q.reminders

/-- Validation of `messageFormSchema`: the base object checks followed by its
three refinements in source order — recurrence cap, schedule window, reminder
lead time.  Check-level base failures are dirty, not aborting, so the
refinements run and their issues accumulate either way. -/
def messageFormIssues (now : Int) (p : MessageForm) : List Issue :=
  formBaseIssues p
    ++ recurCapIssues (yesNoToBool p.isRecurring) p.recurringNum p.recurringPeriod
    ++ scheduleWindowIssues now (yesNoToBool p.isScheduled) p.scheduledDate
    ++ reminderLeadIssues now p.scheduledDate p.reminders

/-- Validation of `messageInputSchema`: the base object checks followed by its
five refinements in source order — the three required-companion rules, the
recurrence cap, the schedule window.  It has no reminder lead-time refinement.
As in form mode, check-level base failures do not suppress the refinements. -/
def messageInputIssues (now : Int) (q : MessageInput) : List Issue :=
  inputBaseIssues q
    ++ scheduledDateRequiredIssues q.isScheduled q.scheduledDate
    ++ recurringFieldsRequiredIssues q.isRecurring q.recurringNum q.recurringPeriod
    ++ remindersRequiredIssues q.isReminders q.reminders
    ++ recurCapIssues q.isRecurring q.recurringNum q.recurringPeriod
    ++ scheduleWindowIssues now q.isScheduled q.scheduledDate

/-- Result of `messageInputSchema.parse`: the storage mode applies no coercion,
so success returns the payload itself; failure returns the issue list. -/
def messageInputParse (now : Int) (q : MessageInput) :
    Except (List Issue) MessageInput :=
  if (messageInputIssues now q).isEmpty then .ok q
  else .error (messageInputIssues now q)

/-- Coercion from the edit-form payload to the storage payload: yes/no strings
become booleans; dates are already modelled as timestamps (see the header). -/
def toInput (p : MessageForm) : MessageInput where
  id := p.id
  groupId := p.groupId
  status := p.status
  type := p.type
  content := p.content
  subject := p.subject
  isScheduled := yesNoToBool p.isScheduled
  scheduledDate := p.scheduledDate
  isRecurring := yesNoToBool p.isRecurring
  recurringNum := p.recurringNum
  recurringPeriod := p.recurringPeriod
  isReminders := yesNoToBool p.isReminders
  reminders := p.reminders
  saveRecipientState := p.saveRecipientState
  recipients := p.recipients

/-- Modelled from the spec: the contact fields of a `MemberBaseContact`
(the type lives in `@/server/api/routers/contact`, not in the inspected
sources); per the spec the persistence boundary exposes the linked contact's
phone and email, both nullable. -/
structure MemberContact where
  phone : Option String
  email : Option String
deriving DecidableEq

/-- Modelled from the spec: a member row as read for snapshot projection —
its id, per-group `isRecipient` flag, and (optionally loaded) contact. -/
structure MemberBaseContact where
  id : String
  isRecipient : Bool
  contact : Option MemberContact
deriving DecidableEq

/-- Truthiness of `!!member.contact?.phone || !!member.contact?.email`. -/
def memberHasChannel (m : MemberBaseContact) : Bool :=
  match m.contact with
  | none => false
  | some c => optStrTruthy c.phone || optStrTruthy c.email

/-- The `getInitialSelectedMembers` helper of src/unnamed/part_005: one
`(id, isSelected)` entry per member, `isSelected` when the member is flagged
recipient and has a truthy phone or email.  `Object.fromEntries` is modelled
as the entry list itself. -/
def getInitialSelectedMembers (groupMembers : List MemberBaseContact) :
    List (String × Bool) :=
  groupMembers.map fun member => (member.id, member.isRecipient && memberHasChannel member)

/-- TRPC error codes used by the embedded handlers. -/
inductive TrpcCode where
  | NOT_FOUND
  | BAD_REQUEST
deriving DecidableEq

/-- A TRPC error: code plus message.  Distinct in kind from the structured
zod `Issue` lists that validation failures produce. -/
structure TrpcError where
  code : TrpcCode
  message : String
deriving DecidableEq

/-- The `emailConfig` row (prisma `EmailConfig`). -/
structure EmailConfig where
  email : String
  accessToken : String
  refreshToken : Option String
deriving DecidableEq

/-- The `smsConfig` row (prisma `SmsConfig`). -/
structure SmsConfig where
  accountSid : String
  phoneNumber : String
  authToken : String
  isDefault : Bool
deriving DecidableEq

/-- The `groupMeConfig` row (prisma `GroupMeConfig`). -/
structure GroupMeConfig where
  accessToken : String
deriving DecidableEq

/-- The channel-connection state of one (found) user: the three optional
config rows the connect handlers read and write.  The user-lookup NOT_FOUND
branch and the rate limiter are outside this state. -/
structure UserChannels where
  emailConfig : Option EmailConfig
  smsConfig : Option SmsConfig
  groupMeConfig : Option GroupMeConfig
deriving DecidableEq

/-- Input of `connectSms` (`smsFormSchema` fields, per its create call). -/
structure SmsFormInput where
  accountSid : String
  authToken : String
  phoneNumber : String
deriving DecidableEq

/-- The `connectEmail` handler of src/unnamed/part_004: BAD_REQUEST when an
`emailConfig` already exists; otherwise it only builds an OAuth authorization
URL and writes nothing, so the user state is returned unchanged. -/
def connectEmail (u : UserChannels) : Except TrpcError UserChannels :=
  match u.emailConfig with
  | some _ => .error ⟨.BAD_REQUEST, "Email is already connected"⟩
  | none => .ok u

/-- The `connectSms` handler of src/unnamed/part_004: BAD_REQUEST when an
`smsConfig` already exists; otherwise it creates the config from the input. -/
def connectSms (u : UserChannels) (input : SmsFormInput) :
    Except TrpcError UserChannels :=
  match u.smsConfig with
  | some _ => .error ⟨.BAD_REQUEST, "SMS already connected"⟩
  | none =>
      .ok { u with smsConfig := some ⟨input.accountSid, input.phoneNumber, input.authToken, false⟩ }

/-- The `connectGroupMe` handler of src/unnamed/part_004: an unconditional
upsert on `groupMeConfig` — it updates the access token when a config exists
and creates one otherwise, never raising a conflict. -/
def connectGroupMe (u : UserChannels) (accessToken : String) :
    Except TrpcError UserChannels :=
  .ok { u with groupMeConfig := some ⟨accessToken⟩ }

/-- A well-formed edit-form payload with scheduling, recurrence and reminders
all disabled; the concrete scenarios below are variants of it. -/
def formDisabled : MessageForm where
  id := none
  groupId := "g1"
  status := .draft
  type := .default
  content := "hello"
  subject := none
  isScheduled := .no
  scheduledDate := none
  isRecurring := .no
  recurringNum := none
  recurringPeriod := none
  isReminders := .no
  reminders := none
  saveRecipientState := false
  recipients := []

/-- Form payload claiming to be scheduled but carrying no date. -/
def formSchedNoDate : MessageForm := { formDisabled with isScheduled := .yes }

/-- Form payload of the weeks-ceiling scenario: recurring weekly 60 times. -/
def formWeeks60 : MessageForm :=
  { formDisabled with
      isRecurring := .yes, recurringNum := some 60, recurringPeriod := some .weeks }

/-- Form payload recurring with a number but no period. -/
def formRecurringNoPeriod : MessageForm :=
  { formDisabled with isRecurring := .yes, recurringNum := some 5 }

/-- Form payload scheduled 100 minutes ahead of time 0. -/
def formScheduled100 : MessageForm :=
  { formDisabled with isScheduled := .yes, scheduledDate := some 100 }

/-- Form payload of the reminder scenario: scheduled for tomorrow (minute 1440
seen from time 0) with a single one-day reminder. -/
def formTomorrowReminder : MessageForm :=
  { formDisabled with
      isScheduled := .yes, scheduledDate := some 1440,
      isReminders := .yes, reminders := some [⟨1, .days⟩] }

/-- Storage payload of the reminder scenario (the coercion of
`formTomorrowReminder`). -/
def inputTomorrowReminder : MessageInput := toInput formTomorrowReminder

/-- Members of the spec's snapshot scenario: A recipient with a phone,
B not a recipient with a phone, C recipient with no contact info. -/
def scenarioMembers : List MemberBaseContact :=
  [⟨"A", true, some ⟨some "5550001", none⟩⟩,
   ⟨"B", false, some ⟨some "5550002", none⟩⟩,
   ⟨"C", true, some ⟨none, none⟩⟩]

lemma baseIssues_eq_nil {c : String} {s : Option String} {n : Option Int}
    {rs : Option (List Reminder)} :
    baseIssues c s n rs = [] ↔
      c.length ≤ 500 ∧ 1 ≤ c.length ∧
        (∀ t, s = some t → t.length ≤ 100) ∧
        (∀ k, n = some k → 0 < k ∧ k ≤ 31) ∧
        (∀ l, rs = some l → l.length ≤ 3) := by
  unfold baseIssues
  rcases s with _ | t <;> rcases n with _ | k <;> rcases rs with _ | l <;>
    simp [List.append_eq_nil] <;> omega

lemma mem_baseIssues_kind {c : String} {s : Option String} {n : Option Int}
    {rs : Option (List Reminder)} {i : Issue} (h : i ∈ baseIssues c s n rs) :
    i.kind = .contentMax ∨ i.kind = .contentMin ∨ i.kind = .subjectMax ∨
      i.kind = .recurringNumNotPositive ∨ i.kind = .recurringNumMax ∨
      i.kind = .remindersMax := by
  unfold baseIssues at h
  rcases s with _ | t <;> rcases n with _ | k <;> rcases rs with _ | l <;>
    simp [List.mem_append] at h <;> aesop

lemma messageFormIssues_eq_nil {now : Int} {p : MessageForm} :
    messageFormIssues now p = [] ↔
      formBaseIssues p = [] ∧
      recurCapIssues (yesNoToBool p.isRecurring) p.recurringNum p.recurringPeriod = [] ∧
      scheduleWindowIssues now (yesNoToBool p.isScheduled) p.scheduledDate = [] ∧
      reminderLeadIssues now p.scheduledDate p.reminders = [] := by
  simp [messageFormIssues, List.append_eq_nil, and_assoc]

lemma messageInputIssues_eq_nil {now : Int} {q : MessageInput} :
    messageInputIssues now q = [] ↔
      inputBaseIssues q = [] ∧
      scheduledDateRequiredIssues q.isScheduled q.scheduledDate = [] ∧
      recurringFieldsRequiredIssues q.isRecurring q.recurringNum q.recurringPeriod = [] ∧
      remindersRequiredIssues q.isReminders q.reminders = [] ∧
      recurCapIssues q.isRecurring q.recurringNum q.recurringPeriod = [] ∧
      scheduleWindowIssues now q.isScheduled q.scheduledDate = [] := by
  simp [messageInputIssues, List.append_eq_nil, and_assoc]

lemma mem_messageFormIssues_of_window {now : Int} {p : MessageForm} {i : Issue}
    (h : i ∈ scheduleWindowIssues now (yesNoToBool p.isScheduled) p.scheduledDate) :
    i ∈ messageFormIssues now p := by
  unfold messageFormIssues
  exact List.mem_append.mpr (Or.inl (List.mem_append.mpr (Or.inr h)))

lemma mem_messageFormIssues_of_cap {now : Int} {p : MessageForm} {i : Issue}
    (h : i ∈ recurCapIssues (yesNoToBool p.isRecurring) p.recurringNum p.recurringPeriod) :
    i ∈ messageFormIssues now p := by
  unfold messageFormIssues
  exact List.mem_append.mpr
    (Or.inl (List.mem_append.mpr (Or.inl (List.mem_append.mpr (Or.inr h)))))

lemma mem_messageFormIssues_of_lead {now : Int} {p : MessageForm} {i : Issue}
    (h : i ∈ reminderLeadIssues now p.scheduledDate p.reminders) :
    i ∈ messageFormIssues now p := by
  unfold messageFormIssues
  exact List.mem_append.mpr (Or.inr h)

lemma mem_messageInputIssues_of_window {now : Int} {q : MessageInput} {i : Issue}
    (h : i ∈ scheduleWindowIssues now q.isScheduled q.scheduledDate) :
    i ∈ messageInputIssues now q := by
  unfold messageInputIssues
  exact List.mem_append.mpr (Or.inr h)

lemma mem_messageInputIssues_of_schedRequired {now : Int} {q : MessageInput}
    {i : Issue} (h : i ∈ scheduledDateRequiredIssues q.isScheduled q.scheduledDate) :
    i ∈ messageInputIssues now q := by
  unfold messageInputIssues
  exact List.mem_append.mpr (Or.inl (List.mem_append.mpr (Or.inl
    (List.mem_append.mpr (Or.inl (List.mem_append.mpr (Or.inl
      (List.mem_append.mpr (Or.inr h)))))))))

lemma mem_messageInputIssues_of_recurRequired {now : Int} {q : MessageInput}
    {i : Issue}
    (h : i ∈ recurringFieldsRequiredIssues q.isRecurring q.recurringNum
      q.recurringPeriod) :
    i ∈ messageInputIssues now q := by
  unfold messageInputIssues
  exact List.mem_append.mpr (Or.inl (List.mem_append.mpr (Or.inl
    (List.mem_append.mpr (Or.inl (List.mem_append.mpr (Or.inr h)))))))

lemma mem_messageInputIssues_of_remindersRequired {now : Int} {q : MessageInput}
    {i : Issue} (h : i ∈ remindersRequiredIssues q.isReminders q.reminders) :
    i ∈ messageInputIssues now q := by
  unfold messageInputIssues
  exact List.mem_append.mpr (Or.inl (List.mem_append.mpr (Or.inl
    (List.mem_append.mpr (Or.inr h)))))

lemma recurCapIssues_of_false {n : Option Int} {per : Option RecurPeriod} :
    recurCapIssues false n per = [] := by
  unfold recurCapIssues
  rcases n with _ | k <;> rcases per with _ | pr <;> simp

lemma mem_scheduleWindowIssues_kind {now : Int} {b : Bool} {d : Option Int}
    {i : Issue} (h : i ∈ scheduleWindowIssues now b d) : i.kind = .scheduleWindow := by
  unfold scheduleWindowIssues at h
  rcases d with _ | dd <;> simp at h <;> aesop

lemma mem_reminderLeadIssues_kind {now : Int} {d : Option Int}
    {rs : Option (List Reminder)} {i : Issue}
    (h : i ∈ reminderLeadIssues now d rs) : i.kind = .reminderLead := by
  unfold reminderLeadIssues at h
  rcases d with _ | dd <;> rcases rs with _ | l <;> simp at h <;> aesop

lemma mem_scheduledDateRequiredIssues_kind {b : Bool} {d : Option Int} {i : Issue}
    (h : i ∈ scheduledDateRequiredIssues b d) : i.kind = .scheduledDateRequired := by
  unfold scheduledDateRequiredIssues at h
  split_ifs at h <;> aesop

lemma mem_recurringFieldsRequiredIssues_kind {b : Bool} {n : Option Int}
    {per : Option RecurPeriod} {i : Issue}
    (h : i ∈ recurringFieldsRequiredIssues b n per) :
    i.kind = .recurringFieldsRequired := by
  unfold recurringFieldsRequiredIssues at h
  split_ifs at h <;> aesop

lemma mem_remindersRequiredIssues_kind {b : Bool} {rs : Option (List Reminder)}
    {i : Issue} (h : i ∈ remindersRequiredIssues b rs) :
    i.kind = .remindersRequired := by
  unfold remindersRequiredIssues at h
  split_ifs at h <;> aesop

lemma mem_recurCapIssues_kind {b : Bool} {n : Option Int} {per : Option RecurPeriod}
    {i : Issue} (h : i ∈ recurCapIssues b n per) :
    ∃ pr, i = recurCapIssue pr := by
  unfold recurCapIssues at h
  rcases n with _ | k <;> rcases per with _ | pr <;> simp at h <;> aesop

lemma scheduleWindow_ok {now dd : Int}
    (h : scheduleWindowIssues now true (some dd) = []) :
    now < dd ∧ dd ≤ now + minutesPerYear := by
  simp only [scheduleWindowIssues] at h
  split_ifs at h with hc
  simp at hc
  omega

lemma scheduleWindow_mem {now dd : Int}
    (hv : dd ≤ now ∨ now + minutesPerYear < dd) :
    (⟨.scheduleWindow, ["scheduledDate", "isScheduled"]⟩ : Issue) ∈
      scheduleWindowIssues now true (some dd) := by
  simp only [scheduleWindowIssues]
  split
  · exact List.mem_singleton.mpr rfl
  · next hcond => exact absurd ⟨by trivial, hv⟩ hcond

lemma reminderLead_ok {now d : Int} {rs : List Reminder}
    (h : reminderLeadIssues now (some d) (some rs) = []) :
    ∀ r ∈ rs, now + 5 < reminderTrigger d r := by
  simp only [reminderLeadIssues] at h
  split_ifs at h with hc
  intro r hr
  exact of_decide_eq_true (List.all_eq_true.mp hc r hr)

lemma reminderLead_mem {now d : Int} {rs : List Reminder}
    (hv : ∃ r ∈ rs, reminderTrigger d r ≤ now + 5) :
    (⟨.reminderLead, []⟩ : Issue) ∈ reminderLeadIssues now (some d) (some rs) := by
  simp only [reminderLeadIssues]
  split
  · next hall =>
      exfalso
      rcases hv with ⟨r, hr, hle⟩
      have hgt := of_decide_eq_true (List.all_eq_true.mp hall r hr)
      omega
  · exact List.mem_singleton.mpr rfl

lemma recurCap_mem {n : Int} {per : RecurPeriod}
    (hgt : recurMaxValues per < n) :
    recurCapIssue per ∈ recurCapIssues true (some n) (some per) := by
  have hpos : 0 < recurMaxValues per := by rcases per <;> decide
  simp only [recurCapIssues]
  split
  · exact List.mem_singleton.mpr rfl
  · next hcond => exact absurd ⟨by trivial, by omega, hgt⟩ hcond

lemma numMax_mem_baseIssues {c : String} {s : Option String}
    {rs : Option (List Reminder)} {n : Int} (h : 31 < n) :
    (⟨.recurringNumMax, ["recurringNum"]⟩ : Issue) ∈ baseIssues c s (some n) rs := by
  unfold baseIssues
  simp only [List.mem_append]
  refine Or.inl (Or.inr ?_)
  simp [h]

lemma string_isEmpty_false_iff (s : String) : s.isEmpty = false ↔ s ≠ "" := by
  rw [Bool.eq_false_iff]
  exact not_congr (String.isEmpty_iff s)

lemma member_selected_iff (m : MemberBaseContact) :
    (m.isRecipient && memberHasChannel m) = true ↔
      m.isRecipient = true ∧ ∃ c, m.contact = some c ∧
        ((∃ s, c.phone = some s ∧ s ≠ "") ∨ (∃ s, c.email = some s ∧ s ≠ "")) := by
  rcases hm : m.contact with _ | c
  · simp [memberHasChannel, hm]
  · rcases c with ⟨ph, em⟩
    rcases ph with _ | sp <;> rcases em with _ | se <;>
      simp [memberHasChannel, optStrTruthy, hm, Bool.and_eq_true,
        string_isEmpty_false_iff]

/-- A user state that already holds a GroupMe configuration. -/
def gmUserOld : UserChannels := ⟨none, none, some ⟨"oldToken"⟩⟩

/-- C8: storage-mode validation is deterministic (it is a pure function of the
payload and the reference time) and idempotent — an accepted value is returned
unchanged (the storage schema applies no coercion), and re-validating the
accepted output at the same reference time accepts again with the same value. -/
theorem storage_parse_idempotent (now : Int) (q v : MessageInput)
    (h : messageInputParse now q = .ok v) :
    v = q ∧ messageInputParse now v = .ok v := by
  unfold messageInputParse at h ⊢
  by_cases he : (messageInputIssues now q).isEmpty = true
  · rw [if_pos he] at h
    injection h with h1
    subst h1
    exact ⟨rfl, by rw [if_pos he]⟩
  · rw [if_neg he] at h
    exact Except.noConfusion h

/-- Witness for C8: the all-disabled storage payload is accepted unchanged and
re-accepted. -/
theorem storage_parse_idempotent_witness :
    toInput formDisabled = toInput formDisabled ∧
      messageInputParse 0 (toInput formDisabled) = .ok (toInput formDisabled) :=
  storage_parse_idempotent 0 (toInput formDisabled) (toInput formDisabled) rfl

/-- C10: every payload accepted by either validation mode satisfies the base
shape invariant — content length between 1 and 500, subject (when present) at
most 100 characters, at most 3 reminders, and a `recurringNum` (when present)
that is positive and at most 31, whatever the recurrence period. -/
theorem base_shape_invariant :
    (∀ (now : Int) (p : MessageForm), messageFormIssues now p = [] →
      1 ≤ p.content.length ∧ p.content.length ≤ 500 ∧
        (∀ s, p.subject = some s → s.length ≤ 100) ∧
        (∀ rs, p.reminders = some rs → rs.length ≤ 3) ∧
        (∀ n, p.recurringNum = some n → 0 < n ∧ n ≤ 31)) ∧
    (∀ (now : Int) (q : MessageInput), messageInputIssues now q = [] →
      1 ≤ q.content.length ∧ q.content.length ≤ 500 ∧
        (∀ s, q.subject = some s → s.length ≤ 100) ∧
        (∀ rs, q.reminders = some rs → rs.length ≤ 3) ∧
        (∀ n, q.recurringNum = some n → 0 < n ∧ n ≤ 31)) := by
  constructor
  · intro now p hp
    have hb := (messageFormIssues_eq_nil.mp hp).1
    unfold formBaseIssues at hb
    have hc := baseIssues_eq_nil.mp hb
    tauto
  · intro now q hq
    have hb := (messageInputIssues_eq_nil.mp hq).1
    unfold inputBaseIssues at hb
    have hc := baseIssues_eq_nil.mp hb
    tauto

/-- Witness for C10: the invariant instantiated at the accepted payload
`formDisabled`. -/
theorem base_shape_invariant_witness :
    1 ≤ formDisabled.content.length ∧ formDisabled.content.length ≤ 500 ∧
      (∀ s, formDisabled.subject = some s → s.length ≤ 100) ∧
      (∀ rs, formDisabled.reminders = some rs → rs.length ≤ 3) ∧
      (∀ n, formDisabled.recurringNum = some n → 0 < n ∧ n ≤ 31) :=
  base_shape_invariant.1 0 formDisabled (by decide)

/-- C9: when recurrence is disabled (`"no"` in form mode, `false` in storage
mode) the per-period maximum error never appears among the issues, whatever
the values of `recurringNum` and `recurringPeriod`. -/
theorem cap_rule_never_fires_when_disabled :
    (∀ (now : Int) (p : MessageForm), p.isRecurring = .no →
      ∀ per : RecurPeriod, recurCapIssue per ∉ messageFormIssues now p) ∧
    (∀ (now : Int) (q : MessageInput), q.isRecurring = false →
      ∀ per : RecurPeriod, recurCapIssue per ∉ messageInputIssues now q) := by
  constructor
  · intro now p hp per hmem
    simp only [messageFormIssues, List.mem_append] at hmem
    rcases hmem with ((h | h) | h) | h
    · unfold formBaseIssues at h
      rcases mem_baseIssues_kind h with h2 | h2 | h2 | h2 | h2 | h2 <;>
        simp [recurCapIssue] at h2
    · rw [hp] at h
      simp [yesNoToBool, recurCapIssues_of_false] at h
    · exact absurd (mem_scheduleWindowIssues_kind h) (by simp [recurCapIssue])
    · exact absurd (mem_reminderLeadIssues_kind h) (by simp [recurCapIssue])
  · intro now q hq per hmem
    simp only [messageInputIssues, List.mem_append] at hmem
    rcases hmem with ((((h | h) | h) | h) | h) | h
    · unfold inputBaseIssues at h
      rcases mem_baseIssues_kind h with h2 | h2 | h2 | h2 | h2 | h2 <;>
        simp [recurCapIssue] at h2
    · exact absurd (mem_scheduledDateRequiredIssues_kind h) (by simp [recurCapIssue])
    · exact absurd (mem_recurringFieldsRequiredIssues_kind h) (by simp [recurCapIssue])
    · exact absurd (mem_remindersRequiredIssues_kind h) (by simp [recurCapIssue])
    · rw [hq] at h
      simp [recurCapIssues_of_false] at h
    · exact absurd (mem_scheduleWindowIssues_kind h) (by simp [recurCapIssue])

/-- Witness for C9: no per-period maximum error on the non-recurring
`formDisabled`, for the weeks period. -/
theorem cap_rule_never_fires_when_disabled_witness :
    recurCapIssue .weeks ∉ messageFormIssues 0 formDisabled :=
  cap_rule_never_fires_when_disabled.1 0 formDisabled rfl .weeks

/-- C6: the snapshot recipient selection marks an id as selected exactly when
some member with that id is flagged recipient and has a populated contact
channel (non-empty phone or non-empty email); in particular the spec scenario
`[A(recipient, phone), B(not recipient, phone), C(recipient, no contact)]`
selects exactly A. -/
theorem snapshot_selection :
    (∀ (gm : List MemberBaseContact) (mid : String),
      ((mid, true) ∈ getInitialSelectedMembers gm ↔
        ∃ m, m ∈ gm ∧ m.id = mid ∧
          (m.isRecipient = true ∧ ∃ c, m.contact = some c ∧
            ((∃ s, c.phone = some s ∧ s ≠ "") ∨ (∃ s, c.email = some s ∧ s ≠ ""))))) ∧
    getInitialSelectedMembers scenarioMembers =
      [("A", true), ("B", false), ("C", false)] := by
  constructor
  · intro gm mid
    simp only [getInitialSelectedMembers, List.mem_map, Prod.mk.injEq]
    constructor
    · rintro ⟨m, hm, hid, hsel⟩
      exact ⟨m, hm, hid, (member_selected_iff m).mp hsel⟩
    · rintro ⟨m, hm, hid, hsel⟩
      exact ⟨m, hm, hid, (member_selected_iff m).mpr hsel⟩
  · decide

/-- C7 counterexample: with a GroupMe configuration already present, the
GroupMe connect handler does not report a conflict — it succeeds and replaces
the stored access token, so the existing configuration does not stay
unchanged. -/
theorem connect_groupme_no_conflict_cex :
    connectGroupMe gmUserOld "newToken" = .ok ⟨none, none, some ⟨"newToken"⟩⟩ ∧
      (⟨none, none, some ⟨"newToken"⟩⟩ : UserChannels) ≠ gmUserOld :=
  ⟨rfl, by decide⟩

/-- C7 (amended): connecting email or SMS when the corresponding configuration
exists fails with a BAD_REQUEST already-connected error (a kind distinct from
the structured validation issues) and performs no write; connecting GroupMe
never conflicts — it upserts, overwriting the stored access token. -/
theorem connect_conflict_behavior :
    (∀ (u : UserChannels) (c : EmailConfig), u.emailConfig = some c →
      connectEmail u = .error ⟨.BAD_REQUEST, "Email is already connected"⟩) ∧
    (∀ (u : UserChannels) (c : SmsConfig) (input : SmsFormInput),
      u.smsConfig = some c →
      connectSms u input = .error ⟨.BAD_REQUEST, "SMS already connected"⟩) ∧
    (∀ (u : UserChannels) (tok : String),
      connectGroupMe u tok = .ok { u with groupMeConfig := some ⟨tok⟩ }) := by
  refine ⟨?_, ?_, ?_⟩
  · intro u c hc
    simp [connectEmail, hc]
  · intro u c input hc
    simp [connectSms, hc]
  · intro u tok
    rfl

/-- Witness for C7 (amended): concrete conflicting email and SMS connects. -/
theorem connect_conflict_behavior_witness :
    connectEmail ⟨some ⟨"a@b.c", "tk", none⟩, none, none⟩ =
        .error ⟨.BAD_REQUEST, "Email is already connected"⟩ ∧
      connectSms ⟨none, some ⟨"sid", "num", "tok", false⟩, none⟩ ⟨"s2", "t2", "n2"⟩ =
        .error ⟨.BAD_REQUEST, "SMS already connected"⟩ :=
  ⟨connect_conflict_behavior.1 ⟨some ⟨"a@b.c", "tk", none⟩, none, none⟩
      ⟨"a@b.c", "tk", none⟩ rfl,
    connect_conflict_behavior.2.1 ⟨none, some ⟨"sid", "num", "tok", false⟩, none⟩
      ⟨"sid", "num", "tok", false⟩ ⟨"s2", "t2", "n2"⟩ rfl⟩

/-- C4: in both modes, a payload with scheduling enabled and a date present is
accepted only if the date is strictly after `now` and at most one year after
`now`; a date outside that window is rejected with the schedule-window issue on
the paths `scheduledDate` and `isScheduled` (the refinement runs and reports
even when base checks fail, since those only make the parse dirty). -/
theorem schedule_window_enforced :
    (∀ (now : Int) (p : MessageForm) (d : Int),
      p.isScheduled = .yes → p.scheduledDate = some d →
      (messageFormIssues now p = [] → now < d ∧ d ≤ now + minutesPerYear) ∧
      ((d ≤ now ∨ now + minutesPerYear < d) →
        messageFormIssues now p ≠ [] ∧
        (⟨.scheduleWindow, ["scheduledDate", "isScheduled"]⟩ : Issue) ∈
          messageFormIssues now p)) ∧
    (∀ (now : Int) (q : MessageInput) (d : Int),
      q.isScheduled = true → q.scheduledDate = some d →
      (messageInputIssues now q = [] → now < d ∧ d ≤ now + minutesPerYear) ∧
      ((d ≤ now ∨ now + minutesPerYear < d) →
        messageInputIssues now q ≠ [] ∧
        (⟨.scheduleWindow, ["scheduledDate", "isScheduled"]⟩ : Issue) ∈
          messageInputIssues now q)) := by
  constructor
  · intro now p d hs hd
    constructor
    · intro hacc
      have h := (messageFormIssues_eq_nil.mp hacc).2.2.1
      rw [hs, hd] at h
      simp only [yesNoToBool] at h
      exact scheduleWindow_ok h
    · intro hv
      have hmm : (⟨.scheduleWindow, ["scheduledDate", "isScheduled"]⟩ : Issue) ∈
          messageFormIssues now p := by
        apply mem_messageFormIssues_of_window
        rw [hs, hd]
        simp only [yesNoToBool]
        exact scheduleWindow_mem hv
      exact ⟨fun hnil => by simp [hnil] at hmm, hmm⟩
  · intro now q d hs hd
    constructor
    · intro hacc
      have h := (messageInputIssues_eq_nil.mp hacc).2.2.2.2.2
      rw [hs, hd] at h
      exact scheduleWindow_ok h
    · intro hv
      have hmm : (⟨.scheduleWindow, ["scheduledDate", "isScheduled"]⟩ : Issue) ∈
          messageInputIssues now q := by
        apply mem_messageInputIssues_of_window
        rw [hs, hd]
        exact scheduleWindow_mem hv
      exact ⟨fun hnil => by simp [hnil] at hmm, hmm⟩

/-- Witness for C4: the accepted payload scheduled at minute 100 (from time 0)
indeed lies in the window, and the same payload moved to minute 0 is rejected. -/
theorem schedule_window_enforced_witness :
    ((0 : Int) < 100 ∧ (100 : Int) ≤ 0 + minutesPerYear) ∧
      messageFormIssues 0 { formScheduled100 with scheduledDate := some 0 } ≠ [] :=
  ⟨(schedule_window_enforced.1 0 formScheduled100 100 rfl rfl).1 (by decide),
    ((schedule_window_enforced.1 0 { formScheduled100 with scheduledDate := some 0 }
        0 rfl rfl).2 (Or.inl le_rfl)).1⟩

/-- C2: whenever recurrence is enabled and the recurring number exceeds its
period's configured ceiling, form-mode validation fails, and the recurrence-cap
issue — whose message names the offending period and its maximum and whose path
includes `recurringNum` — is among the errors.  The cap refinement runs even
when the number also breaks the base bound 31, because a failed check only
makes the zod parse dirty; so the weeks/60 scenario is rejected citing the
weeks ceiling. -/
theorem recur_cap_exceeded_rejected :
    ∀ (now : Int) (p : MessageForm) (n : Int) (per : RecurPeriod),
      p.isRecurring = .yes → p.recurringNum = some n →
      p.recurringPeriod = some per → recurMaxValues per < n →
      messageFormIssues now p ≠ [] ∧
      recurCapIssue per ∈ messageFormIssues now p ∧
      "recurringNum" ∈ (recurCapIssue per).path := by
  intro now p n per hr hn hp hgt
  have hmm : recurCapIssue per ∈ messageFormIssues now p := by
    apply mem_messageFormIssues_of_cap
    rw [hr, hn, hp]
    simp only [yesNoToBool]
    exact recurCap_mem hgt
  exact ⟨fun hnil => by simp [hnil] at hmm, hmm, by simp [recurCapIssue]⟩

/-- Witness for C2: the weeks scenario `isRecurring="yes"`, period weeks,
number 60 (above the weeks ceiling of 52) is rejected, with the issue citing
the weeks ceiling among the errors and `recurringNum` in its path. -/
theorem recur_cap_exceeded_rejected_witness :
    messageFormIssues 0 formWeeks60 ≠ [] ∧
      recurCapIssue .weeks ∈ messageFormIssues 0 formWeeks60 ∧
      "recurringNum" ∈ (recurCapIssue .weeks).path :=
  recur_cap_exceeded_rejected 0 formWeeks60 60 .weeks rfl rfl rfl (by decide)

/-- C5 counterexample: the edit-form schema accepts `isRecurring="yes"` with a
recurring number present but no period — the required-companion rules are not
part of form-mode validation. -/
theorem form_no_companion_rules_cex :
    messageFormIssues 0 formRecurringNoPeriod = [] := by decide

/-- C5 (amended): the storage schema enforces all three required-companion
rules — a scheduled payload without a date, a recurring payload without a
truthy number or a period, and a reminders-enabled payload with a missing or
empty reminder list are each rejected, with the corresponding companion issue
whenever the base checks pass; the edit-form schema enforces none of them. -/
theorem storage_companion_rules :
    ∀ (now : Int) (q : MessageInput),
      (q.isScheduled = true → q.scheduledDate = none →
        messageInputIssues now q ≠ [] ∧
        (inputBaseIssues q = [] →
          (⟨.scheduledDateRequired, ["scheduledDate"]⟩ : Issue) ∈
            messageInputIssues now q)) ∧
      (q.isRecurring = true →
        (optIntTruthy q.recurringNum = false ∨ q.recurringPeriod = none) →
        messageInputIssues now q ≠ [] ∧
        (inputBaseIssues q = [] →
          (⟨.recurringFieldsRequired, ["recurringNum", "recurringPeriod"]⟩ : Issue) ∈
            messageInputIssues now q)) ∧
      (q.isReminders = true → (q.reminders = none ∨ q.reminders = some []) →
        messageInputIssues now q ≠ [] ∧
        (inputBaseIssues q = [] →
          (⟨.remindersRequired, ["reminders"]⟩ : Issue) ∈
            messageInputIssues now q)) := by
  intro now q
  refine ⟨?_, ?_, ?_⟩
  · intro hs hd
    have hmm : (⟨.scheduledDateRequired, ["scheduledDate"]⟩ : Issue) ∈
        messageInputIssues now q := by
      apply mem_messageInputIssues_of_schedRequired
      unfold scheduledDateRequiredIssues
      rw [if_pos ⟨by simp [hs], hd⟩]
      exact List.mem_singleton.mpr rfl
    exact ⟨fun hnil => by simp [hnil] at hmm, fun _ => hmm⟩
  · intro hr hcomp
    have hmm : (⟨.recurringFieldsRequired, ["recurringNum", "recurringPeriod"]⟩ : Issue) ∈
        messageInputIssues now q := by
      apply mem_messageInputIssues_of_recurRequired
      unfold recurringFieldsRequiredIssues
      rw [if_pos ⟨by simp [hr], hcomp⟩]
      exact List.mem_singleton.mpr rfl
    exact ⟨fun hnil => by simp [hnil] at hmm, fun _ => hmm⟩
  · intro hm hcomp
    have hmm : (⟨.remindersRequired, ["reminders"]⟩ : Issue) ∈
        messageInputIssues now q := by
      apply mem_messageInputIssues_of_remindersRequired
      unfold remindersRequiredIssues
      rw [if_pos ⟨by simp [hm], hcomp⟩]
      exact List.mem_singleton.mpr rfl
    exact ⟨fun hnil => by simp [hnil] at hmm, fun _ => hmm⟩

/-- Witness for C5 (amended): the storage coercion of the scheduled-without-date
payload is rejected with the companion issue on `scheduledDate`. -/
theorem storage_companion_rules_witness :
    messageInputIssues 0 (toInput formSchedNoDate) ≠ [] ∧
      (inputBaseIssues (toInput formSchedNoDate) = [] →
        (⟨.scheduledDateRequired, ["scheduledDate"]⟩ : Issue) ∈
          messageInputIssues 0 (toInput formSchedNoDate)) :=
  (storage_companion_rules 0 (toInput formSchedNoDate)).1 rfl rfl

/-- C3 counterexample: the storage schema accepts the payload scheduled at
minute 1440 (tomorrow, seen from time 0) carrying a one-day reminder, even
though the reminder's trigger (minute 0) is not later than now + 5 minutes —
`messageInputSchema` has no reminder lead-time refinement. -/
theorem storage_no_reminder_lead_cex :
    messageInputIssues 0 inputTomorrowReminder = [] ∧
      reminderTrigger 1440 ⟨1, .days⟩ ≤ 0 + 5 := by decide

/-- C3 (amended): the reminder lead-time rule holds for the edit-form schema
only — a form payload with a date and a reminder list is accepted only if every
reminder's trigger is strictly later than now + 5 minutes, and one violating
reminder rejects the whole payload; the storage schema performs no such check. -/
theorem form_reminder_lead_time :
    ∀ (now : Int) (p : MessageForm) (d : Int) (rs : List Reminder),
      p.scheduledDate = some d → p.reminders = some rs →
      (messageFormIssues now p = [] → ∀ r ∈ rs, now + 5 < reminderTrigger d r) ∧
      ((∃ r ∈ rs, reminderTrigger d r ≤ now + 5) → messageFormIssues now p ≠ []) := by
  intro now p d rs hd hrs
  constructor
  · intro hacc
    have h := (messageFormIssues_eq_nil.mp hacc).2.2.2
    rw [hd, hrs] at h
    exact reminderLead_ok h
  · intro hv
    have hmm : (⟨.reminderLead, []⟩ : Issue) ∈ messageFormIssues now p := by
      apply mem_messageFormIssues_of_lead
      rw [hd, hrs]
      exact reminderLead_mem hv
    exact fun hnil => by simp [hnil] at hmm

/-- Witness for C3 (amended): the tomorrow-with-one-day-reminder form payload is
rejected even though its schedule window is fine. -/
theorem form_reminder_lead_time_witness :
    messageFormIssues 0 formTomorrowReminder ≠ [] :=
  (form_reminder_lead_time 0 formTomorrowReminder 1440 [⟨1, .days⟩] rfl rfl).2
    ⟨⟨1, .days⟩, by simp, by decide⟩

/-- C1 counterexample: the two modes do not enforce identical semantics — the
edit-form schema accepts the scheduled-without-date payload while the storage
schema rejects its boolean/date coercion. -/
theorem modes_not_equivalent_cex :
    messageFormIssues 0 formSchedNoDate = [] ∧
      messageInputIssues 0 (toInput formSchedNoDate) ≠ [] := by decide

/-- C1 (amended): the two modes share the base checks, the recurrence cap and
the schedule window, but their refinement sets differ — the storage mode alone
enforces the three required-companion rules and the edit-form mode alone
enforces the reminder lead-time rule.  On payloads engaging neither of those
extra rule sets, the coercion of yes/no flags to booleans (dates being parsed
alike) makes the two modes accept or reject together. -/
theorem modes_agree_on_common_fragment :
    ∀ (now : Int) (p : MessageForm),
      scheduledDateRequiredIssues (yesNoToBool p.isScheduled) p.scheduledDate = [] →
      recurringFieldsRequiredIssues (yesNoToBool p.isRecurring) p.recurringNum
        p.recurringPeriod = [] →
      remindersRequiredIssues (yesNoToBool p.isReminders) p.reminders = [] →
      reminderLeadIssues now p.scheduledDate p.reminders = [] →
      (messageFormIssues now p = [] ↔ messageInputIssues now (toInput p) = []) := by
  intro now p h1 h2 h3 h4
  rw [messageFormIssues_eq_nil, messageInputIssues_eq_nil]
  simp only [toInput, inputBaseIssues, formBaseIssues, h1, h2, h3, h4]
  tauto

/-- Witness for C1 (amended): at the all-disabled payload the two modes agree. -/
theorem modes_agree_on_common_fragment_witness :
    messageFormIssues 0 formDisabled = [] ↔
      messageInputIssues 0 (toInput formDisabled) = [] :=
  modes_agree_on_common_fragment 0 formDisabled (by decide) (by decide)
    (by decide) (by decide)

end TeamSend
